import Mathlib

set_option maxRecDepth 2048

/-!
Verification of the chat-transcript and agent-step event model of the
"Intelligent SQL Executor" Streamlit application.

The development shallowly embeds the Python code:

* `StreamlitCallbackHandler` (src/app.py, lines 21-76) becomes a family of
  pure functions on the handler's `steps` list, one per callback method.
* The chat-input handling of src/app.py (lines 224-275) and of
  src/Archives/3rd_attempt.py (lines 79-98) become transition functions on a
  `Session` record mirroring `st.session_state`.
* The external SQL agent is opaque: one invocation is modelled by the list of
  callback notifications it emits plus either a returned output text or a
  raised exception message (`AgentBehavior`).
* Python list-object identity (needed to state that attached step traces are
  never retroactively edited) is modelled in the `Alias` namespace by an
  explicit store of list cells addressed by natural-number references.
-/

/-- One entry of the handler's `steps` list.  In the Python source every entry
is a dict with a `"type"` key, a `"content"` key, and (for tool starts only)
`"tool"` and `"input"` keys; absent keys are modelled by `none`. -/
structure AgentStep where
  type : String
  tool : Option String := none
  input : Option String := none
  content : String
deriving DecidableEq, Repr

/-- The slice of a Python `Dict[str, Any]` callback payload that the handler
observes: `render` is the result of Python `str(serialized)`, and `name?` is
the `"name"` entry when present (so `serialized.get("name", d)` is
`name?.getD d`). -/
structure PyDict where
  render : String
  name? : Option String
deriving DecidableEq, Repr

/-- Substring occurrence on code-point lists: `sub` occurs in `l` iff it is a
prefix of some suffix of `l`. -/
def containsSub (l sub : List Char) : Bool :=
  match l with
  | [] => sub.isEmpty
  | _ :: t => sub.isPrefixOf l || containsSub t sub

/-- Python's substring test `sub in s` on the strings' code points. -/
def strContains (s sub : String) : Bool :=
  containsSub s.data sub.data

/-- Python `str.lower()`: lower-cases every code point of the string. -/
def pyLower (s : String) : String :=
  String.mk (s.data.map Char.toLower)

/-- The `self.steps.append(step)` primitive every callback method uses: it
appends exactly one step to the buffer and is total (never fails). -/
def record (steps : List AgentStep) (s : AgentStep) : List AgentStep :=
  steps ++ [s]

/-- The step appended by `on_chain_start` (src/app.py:31-34). -/
def chainStartStep : AgentStep :=
  ⟨"chain_start", none, none, "🔗 Entering new SQL Agent Executor chain..."⟩

/-- The step appended by `on_chain_end` (src/app.py:38-41). -/
def chainEndStep : AgentStep :=
  ⟨"chain_end", none, none, "✅ Finished chain."⟩

/-- `on_chain_start` (src/app.py:28-34): reads `serialized.get("name", "Chain")`
and appends a chain-start step exactly when `"Agent" in str(serialized)` or
`"agent" in str(chain_name).lower()`. -/
def on_chain_start (steps : List AgentStep) (serialized : PyDict) : List AgentStep :=
  let chain_name := serialized.name?.getD "Chain"
  if strContains serialized.render "Agent" || strContains (pyLower chain_name) "agent" then
    record steps chainStartStep
  else
    steps

/-- `on_chain_end` (src/app.py:36-41): appends a chain-end step only when the
buffer is nonempty and its last entry is a chain-start step. -/
def on_chain_end (steps : List AgentStep) : List AgentStep :=
  match steps.getLast? with
  | some last => if last.type == "chain_start" then record steps chainEndStep else steps
  | none => steps

/-- `on_tool_start` (src/app.py:43-50): `serialized.get("name", "unknown_tool")`
plus the given input string. -/
def on_tool_start (steps : List AgentStep) (serialized : PyDict) (input_str : String) :
    List AgentStep :=
  let tool_name := serialized.name?.getD "unknown_tool"
  record steps
    ⟨"tool_start", some tool_name, some input_str,
      "🔧 Invoking: `" ++ tool_name ++ "` with `" ++ input_str ++ "`"⟩

/-- `on_tool_end` (src/app.py:52-58): `output[:500] + "..."` when
`len(output) > 500`, else `output` unchanged (Python slices and `len` act on
code points, as do `String.take` and `String.length`). -/
def on_tool_end (steps : List AgentStep) (output : String) : List AgentStep :=
  let display_output := if output.length > 500 then output.take 500 ++ "..." else output
  record steps ⟨"tool_output", none, none, display_output⟩

/-- `on_tool_error` (src/app.py:60-64). -/
def on_tool_error (steps : List AgentStep) (error : String) : List AgentStep :=
  record steps ⟨"error", none, none, "❌ Error: " ++ error⟩

/-- `on_agent_action` (src/app.py:66-70): records the action's tool name. -/
def on_agent_action (steps : List AgentStep) (actionTool : String) : List AgentStep :=
  record steps ⟨"agent_action", none, none, "🎯 Agent action: " ++ actionTool⟩

/-- `get_steps` (src/app.py:72-73): returns the buffer. -/
def get_steps (steps : List AgentStep) : List AgentStep :=
  steps

/-- `clear` (src/app.py:75-76): rebinds `self.steps` to a fresh empty list. -/
def clear (_steps : List AgentStep) : List AgentStep :=
  []

/-- One callback notification delivered by the external agent during an
invocation, carrying exactly the arguments the handler inspects. -/
inductive CbEvent where
  | chainStart (serialized : PyDict)
  | chainEnd
  | toolStart (serialized : PyDict) (input_str : String)
  | toolEnd (output : String)
  | toolError (msg : String)
  | agentAction (tool : String)
deriving DecidableEq, Repr

/-- Dispatch of one notification to the corresponding handler method. -/
def handleEvent (steps : List AgentStep) : CbEvent → List AgentStep
  | .chainStart serialized => on_chain_start steps serialized
  | .chainEnd => on_chain_end steps
  | .toolStart serialized input_str => on_tool_start steps serialized input_str
  | .toolEnd output => on_tool_end steps output
  | .toolError msg => on_tool_error steps msg
  | .agentAction tool => on_agent_action steps tool

/-- The handler state after a sequence of notifications. -/
def handleEvents (steps : List AgentStep) (events : List CbEvent) : List AgentStep :=
  List.foldl handleEvent steps events

/-- One message of the chat transcript (`st.session_state.messages`).  User
messages are dicts without a `"thinking_steps"` key (`none`); the assistant
messages appended by src/app.py carry a copied step list (`some`). -/
structure ChatMessage where
  role : String
  content : String
  thinking_steps : Option (List AgentStep) := none
deriving DecidableEq, Repr

/-- The per-session UI state (`st.session_state`).  `thread_id` holds
`str(uuid.uuid4())`; since the string rendering of a UUID value is injective,
the identifier is modelled by the drawn value itself, and the random UUID
source by a supply counter `uuidSupply` that never repeats a value. -/
structure Session where
  messages : List ChatMessage
  thinking_steps : List AgentStep
  thread_id : Nat
  uuidSupply : Nat
  callbackSteps : List AgentStep
deriving DecidableEq, Repr

/-- The externally observable behaviour of one opaque agent invocation: the
callback notifications it emits (all delivered before it returns or raises)
and its outcome — `.ok output` for a normal return of `response["output"]`,
`.error msg` for a raised exception with message `msg`. -/
structure AgentBehavior where
  events : List CbEvent
  outcome : Except String String
deriving Repr

/-- An agent invocation that raises an exception after emitting `events`. -/
def failAgent (events : List CbEvent) (msg : String) : AgentBehavior :=
  ⟨events, .error msg⟩

/-- An agent invocation that returns `out` after emitting `events`. -/
def okAgent (events : List CbEvent) (out : String) : AgentBehavior :=
  ⟨events, .ok out⟩

/-- Model of `run_sql_agent` (src/app.py:113-142): the handler is cleared,
the agent is invoked with the handler as callback sink, and the function
returns `(response["output"], callback_handler.get_steps())` — or propagates
the raised exception, the handler retaining the steps recorded so far.  The
first component is the outcome, the second the handler's step buffer after
the invocation. -/
def run_sql_agent (agent : AgentBehavior) : Except String String × List AgentStep :=
  let steps := handleEvents (clear []) agent.events
  (agent.outcome, get_steps steps)

/-- Result of one chat turn of src/app.py: the updated session state plus
`some msg` when an exception escaped the turn uncaught. -/
structure TurnResult where
  sess : Session
  raised : Option String
deriving DecidableEq, Repr

/-- Chat-input handling of src/app.py (lines 224-275): the user message is
appended, then `run_sql_agent` runs; on success one assistant message with a
copy of the thinking steps is appended; the code has no `try`/`except`, so a
raised exception escapes after the user message was already appended (session
state persists across the resulting rerun). -/
def appTurn (sess : Session) (prompt : String) (agent : AgentBehavior) : TurnResult :=
  let sess₁ :=
    { sess with messages := sess.messages ++ ([⟨"user", prompt, none⟩] : List ChatMessage) }
  let (outcome, steps) := run_sql_agent agent
  let sess₂ := { sess₁ with callbackSteps := steps }
  match outcome with
  | .error e => ⟨sess₂, some e⟩
  | .ok response_content =>
      ⟨{ sess₂ with
          messages := sess₂.messages ++
            ([⟨"assistant", response_content, some steps⟩] : List ChatMessage) },
        none⟩

/-- The error text built by the archived handler's `except` branch
(src/Archives/3rd_attempt.py:94). -/
def archiveErrText (msg : String) : String :=
  "⚠️ **Error processing request:** " ++ msg

/-- Chat-input handling of src/Archives/3rd_attempt.py (lines 79-98): the
invocation is wrapped in `try`/`except`, so the turn always appends one user
message and one assistant message, the latter carrying either the output or
an error text built from the exception message (no thinking steps). -/
def archiveTurn (sess : Session) (prompt : String) (agent : AgentBehavior) : Session :=
  let sess₁ :=
    { sess with messages := sess.messages ++ ([⟨"user", prompt, none⟩] : List ChatMessage) }
  let result :=
    match agent.outcome with
    | .ok out => out
    | .error e => archiveErrText e
  { sess₁ with messages := sess₁.messages ++ ([⟨"assistant", result, none⟩] : List ChatMessage) }

/-- The Clear Chat button handler (src/app.py:321-325): empties the transcript
and the thinking-step list and draws a fresh thread id from the UUID supply. -/
def clearChat (sess : Session) : Session :=
  { sess with
      messages := [],
      thinking_steps := [],
      thread_id := sess.uuidSupply,
      uuidSupply := sess.uuidSupply + 1 }

namespace Alias

/-- A store of Python list objects: cell `r` holds the list currently stored
in the object with reference `r`.  References are allocation indices. -/
structure Store where
  cells : List (List AgentStep)
deriving DecidableEq, Repr

/-- Dereference a list object (out-of-range references read as `[]`; the
development only ever reads allocated references). -/
def Store.read (st : Store) (r : Nat) : List AgentStep :=
  st.cells.getD r []

/-- In-place mutation of the list object behind `r`. -/
def Store.write (st : Store) (r : Nat) (v : List AgentStep) : Store :=
  ⟨st.cells.set r v⟩

/-- Allocation of a fresh list object holding `v`. -/
def Store.alloc (st : Store) (v : List AgentStep) : Store × Nat :=
  (⟨st.cells ++ [v]⟩, st.cells.length)

/-- The handler's identity state: the store of list objects plus the reference
currently bound to `self.steps`. -/
structure HandlerState where
  store : Store
  stepsRef : Nat
deriving DecidableEq, Repr

/-- `clear` (src/app.py:75-76) as `self.steps = []`: rebinds `self.steps` to a
freshly allocated empty list object; the previously referenced object is left
untouched. -/
def clearOp (σ : HandlerState) : HandlerState :=
  let (st, r) := σ.store.alloc []
  ⟨st, r⟩

/-- `self.steps.append(step)`: in-place mutation of the currently referenced
list object. -/
def recordOp (σ : HandlerState) (s : AgentStep) : HandlerState :=
  ⟨σ.store.write σ.stepsRef (σ.store.read σ.stepsRef ++ [s]), σ.stepsRef⟩

/-- One callback notification in the identity model: the handler reads the
current list behind `self.steps`, applies the method's logic (`handleEvent`),
and the result is stored back in place — each method either appends via
`self.steps.append` or leaves the object as it is. -/
def handleEventOp (σ : HandlerState) (e : CbEvent) : HandlerState :=
  ⟨σ.store.write σ.stepsRef (handleEvent (σ.store.read σ.stepsRef) e), σ.stepsRef⟩

/-- `run_sql_agent`'s callback side (src/app.py:135-140): clear the handler,
then deliver the invocation's notifications to it. -/
def invokeTurn (σ : HandlerState) (events : List CbEvent) : HandlerState :=
  List.foldl handleEventOp (clearOp σ) events

/-- `thinking_steps.copy()` at attachment time (src/app.py:272): a fresh list
object with the same contents is allocated and its reference is stored in the
owning ChatMessage; the handler keeps its own reference. -/
def attachSteps (σ : HandlerState) : HandlerState × Nat :=
  let (st, r) := σ.store.alloc (σ.store.read σ.stepsRef)
  (⟨st, σ.stepsRef⟩, r)

/-- A later recorder operation: a `record` (append) or a `reset` (clear). -/
inductive RecorderOp where
  | record (s : AgentStep)
  | reset
deriving DecidableEq, Repr

/-- Effect of one later recorder operation on the handler state. -/
def runOp (σ : HandlerState) : RecorderOp → HandlerState
  | .record s => recordOp σ s
  | .reset => clearOp σ

/-- Effect of a sequence of later recorder operations. -/
def runOps (σ : HandlerState) (ops : List RecorderOp) : HandlerState :=
  List.foldl runOp σ ops

/-- `get_steps` (src/app.py:72-73) in the identity model: returns the live
reference bound to `self.steps`, leaving the state untouched. -/
def getStepsOp (σ : HandlerState) : Nat × HandlerState :=
  (σ.stepsRef, σ)

end Alias

/-- Folding the append primitive over a list of steps appends that list to the
buffer. -/
theorem foldl_record (acc l : List AgentStep) :
    List.foldl record acc l = acc ++ l := by
  induction l generalizing acc with
  | nil => simp
  | cons x xs ih => simp [record, ih]

/-- Code-point length of a Python slice `s[:n]`. -/
theorem length_take_eq (s : String) (n : Nat) :
    (s.take n).length = min n s.length := by
  show (s.take n).data.length = _
  rw [String.data_take]
  show (s.data.take n).length = min n s.data.length
  simp

/-- A serialized payload whose rendering and name mention `AgentExecutor`. -/
def agentSer : PyDict :=
  ⟨"\x7b\x27name\x27: \x27AgentExecutor\x27\x7d", some "AgentExecutor"⟩

/-- A serialized payload of a non-agent chain. -/
def llmSer : PyDict :=
  ⟨"\x7b\x27name\x27: \x27LLMChain\x27\x7d", some "LLMChain"⟩

/-- The serialized payload of the `query_sql` tool. -/
def sqlToolSer : PyDict :=
  ⟨"\x7b\x27name\x27: \x27query_sql\x27\x7d", some "query_sql"⟩

/-- A serialized tool payload without a `"name"` key. -/
def noNameSer : PyDict :=
  ⟨"\x7b\x7d", none⟩

/-- A session with an empty transcript and a thread id drawn from the supply. -/
def emptySession : Session :=
  ⟨[], [], 0, 1, []⟩

/-- A session holding one user message, thread id `0` drawn from the supply. -/
def demoSession : Session :=
  ⟨[⟨"user", "hi", none⟩], [], 0, 1, []⟩

/-- Claim C2: after a `reset()` (`clear`), folding any sequence of `record`
calls leaves exactly those steps in emission order: `snapshot()` (`get_steps`)
returns them with no loss, its length equals the number of `record` calls,
each `record` call appends exactly one step (and is a total function, hence
never fails), and a subsequent `reset()` yields an empty buffer. -/
theorem c2_recorder_roundtrip (buf : List AgentStep) (events : List AgentStep) :
    get_steps (List.foldl record (clear buf) events) = events
    ∧ (List.foldl record (clear buf) events).length = events.length
    ∧ (∀ b e, (record b e).length = b.length + 1)
    ∧ clear (List.foldl record (clear buf) events) = [] := by
  refine ⟨?_, ?_, ?_, rfl⟩
  · simp [get_steps, clear, foldl_record]
  · simp [clear, foldl_record]
  · intro b e
    simp [record]

/-- Claim C7: the Clear Chat handler resets the transcript length to zero,
empties the stored thinking steps, and draws a thread id distinct from the
current one (the current id was drawn earlier from the never-repeating UUID
supply, hence is below the supply counter). -/
theorem c7_clear_chat (sess : Session) (h : sess.thread_id < sess.uuidSupply) :
    (clearChat sess).messages.length = 0
    ∧ (clearChat sess).thinking_steps = []
    ∧ (clearChat sess).thread_id ≠ sess.thread_id := by
  refine ⟨rfl, rfl, ?_⟩
  simp only [clearChat]
  omega

/-- Claim C7 witness: clearing a concrete one-message session empties the
transcript and changes the thread id. -/
theorem c7_clear_chat_witness :
    demoSession.thread_id < demoSession.uuidSupply
    ∧ ((clearChat demoSession).messages.length = 0
      ∧ (clearChat demoSession).thinking_steps = []
      ∧ (clearChat demoSession).thread_id ≠ demoSession.thread_id) :=
  ⟨by decide, c7_clear_chat demoSession (by decide)⟩

/-- Claim C8: `get_steps` returns the current ordered buffer without mutating
the recorder: in the list-object model, after any sequence of record/reset
operations a snapshot leaves the handler state unchanged, and two consecutive
snapshots return the same sequence; in the pure model `get_steps` is the
identity on the buffer. -/
theorem c8_snapshot_no_mutation (σ : Alias.HandlerState) (ops : List Alias.RecorderOp)
    (buf : List AgentStep) :
    (Alias.getStepsOp (Alias.runOps σ ops)).2 = Alias.runOps σ ops
    ∧ (Alias.getStepsOp ((Alias.getStepsOp (Alias.runOps σ ops)).2)).2
        = Alias.runOps σ ops
    ∧ ((Alias.getStepsOp (Alias.runOps σ ops)).2).store.read
          ((Alias.getStepsOp ((Alias.getStepsOp (Alias.runOps σ ops)).2)).1)
        = (Alias.runOps σ ops).store.read ((Alias.getStepsOp (Alias.runOps σ ops)).1)
    ∧ get_steps buf = buf :=
  ⟨rfl, rfl, rfl, rfl⟩

/-- Claim C9: a chain-start notification appends the chain-start step exactly
when the rendered payload contains `"Agent"` or the chain name (default
`"Chain"`) contains `"agent"` case-insensitively; otherwise the buffer is
unchanged. -/
theorem c9_chain_start_filter (steps : List AgentStep) (serialized : PyDict) :
    (strContains serialized.render "Agent" = true
        ∨ strContains (pyLower (serialized.name?.getD "Chain")) "agent" = true →
      on_chain_start steps serialized = steps ++ [chainStartStep])
    ∧ (strContains serialized.render "Agent" = false
        ∧ strContains (pyLower (serialized.name?.getD "Chain")) "agent" = false →
      on_chain_start steps serialized = steps) := by
  constructor
  · intro h
    rcases h with h | h <;> simp [on_chain_start, record, h]
  · intro h
    simp [on_chain_start, h.1, h.2]

/-- Claim C9 witness: an `AgentExecutor` payload is recorded, an `LLMChain`
payload is silently dropped. -/
theorem c9_chain_start_filter_witness :
    on_chain_start [] agentSer = [] ++ [chainStartStep]
    ∧ on_chain_start [] llmSer = [] :=
  ⟨(c9_chain_start_filter [] agentSer).1 (Or.inl (by decide)),
   (c9_chain_start_filter [] llmSer).2 (by decide)⟩

/-- Claim C10: a tool-start notification records a step whose tool name is the
payload's `"name"` entry, defaulting to `"unknown_tool"` when the key is
absent, together with the given input string. -/
theorem c10_tool_name_default (steps : List AgentStep) (serialized : PyDict)
    (input_str : String) :
    (serialized.name? = none →
      on_tool_start steps serialized input_str
        = steps ++ [⟨"tool_start", some "unknown_tool", some input_str,
            "🔧 Invoking: `" ++ "unknown_tool" ++ "` with `" ++ input_str ++ "`"⟩])
    ∧ (∀ n, serialized.name? = some n →
      on_tool_start steps serialized input_str
        = steps ++ [⟨"tool_start", some n, some input_str,
            "🔧 Invoking: `" ++ n ++ "` with `" ++ input_str ++ "`"⟩]) := by
  constructor
  · intro h
    simp [on_tool_start, record, h]
  · intro n h
    simp [on_tool_start, record, h]

/-- Claim C10 witness: a nameless payload records `unknown_tool`; the
`query_sql` payload records its name. -/
theorem c10_tool_name_default_witness :
    on_tool_start [] noNameSer "<SQL>"
      = [] ++ [⟨"tool_start", some "unknown_tool", some "<SQL>",
          "🔧 Invoking: `" ++ "unknown_tool" ++ "` with `" ++ "<SQL>" ++ "`"⟩]
    ∧ on_tool_start [] sqlToolSer "<SQL>"
      = [] ++ [⟨"tool_start", some "query_sql", some "<SQL>",
          "🔧 Invoking: `" ++ "query_sql" ++ "` with `" ++ "<SQL>" ++ "`"⟩] :=
  ⟨(c10_tool_name_default [] noNameSer "<SQL>").1 rfl,
   (c10_tool_name_default [] sqlToolSer "<SQL>").2 "query_sql" rfl⟩

namespace Alias

/-- Reading a cell immediately after writing it. -/
theorem read_write_self (st : Store) (r : Nat) (v : List AgentStep)
    (h : r < st.cells.length) : (st.write r v).read r = v := by
  simp [Store.read, Store.write, List.getD_eq_getElem?_getD, List.getElem?_set_self, h]

/-- Writing one cell leaves every other cell unchanged. -/
theorem read_write_ne (st : Store) (r r' : Nat) (v : List AgentStep)
    (h : r ≠ r') : (st.write r v).read r' = st.read r' := by
  simp [Store.read, Store.write, List.getD_eq_getElem?_getD, List.getElem?_set_ne h]

/-- Writing preserves the number of allocated cells. -/
theorem write_length (st : Store) (r : Nat) (v : List AgentStep) :
    (st.write r v).cells.length = st.cells.length := by
  simp [Store.write]

/-- Reading a freshly allocated cell yields the allocated value. -/
theorem read_alloc_new (st : Store) (v : List AgentStep) :
    (st.alloc v).1.read (st.alloc v).2 = v := by
  simp [Store.read, Store.alloc, List.getD_eq_getElem?_getD, List.getElem?_concat_length]

/-- Allocation leaves every previously allocated cell unchanged. -/
theorem read_alloc_old (st : Store) (v : List AgentStep) (r : Nat)
    (h : r < st.cells.length) : (st.alloc v).1.read r = st.read r := by
  simp [Store.read, Store.alloc, List.getD_eq_getElem?_getD, List.getElem?_append_left h]

/-- Allocation grows the store by one cell. -/
theorem alloc_length (st : Store) (v : List AgentStep) :
    (st.alloc v).1.cells.length = st.cells.length + 1 := by
  simp [Store.alloc]

/-- One callback notification keeps the reference and the store size, and
updates the referenced cell by the pure handler step. -/
theorem handleEventOp_inv (σ : HandlerState) (e : CbEvent)
    (h : σ.stepsRef < σ.store.cells.length) :
    (handleEventOp σ e).stepsRef = σ.stepsRef
    ∧ (handleEventOp σ e).store.cells.length = σ.store.cells.length
    ∧ (handleEventOp σ e).store.read σ.stepsRef
        = handleEvent (σ.store.read σ.stepsRef) e := by
  exact ⟨rfl, write_length .., read_write_self _ _ _ h⟩

/-- A whole notification sequence keeps the reference and store size and
drives the referenced cell exactly as the pure handler does. -/
theorem foldl_handleEventOp (events : List CbEvent) (σ : HandlerState)
    (h : σ.stepsRef < σ.store.cells.length) :
    (List.foldl handleEventOp σ events).stepsRef = σ.stepsRef
    ∧ (List.foldl handleEventOp σ events).store.cells.length = σ.store.cells.length
    ∧ (List.foldl handleEventOp σ events).store.read σ.stepsRef
        = handleEvents (σ.store.read σ.stepsRef) events := by
  induction events generalizing σ with
  | nil => exact ⟨rfl, rfl, rfl⟩
  | cons e es ih =>
    have h1 := handleEventOp_inv σ e h
    have hlt : (handleEventOp σ e).stepsRef < (handleEventOp σ e).store.cells.length := by
      rw [h1.1, h1.2.1]
      exact h
    have h2 := ih (handleEventOp σ e) hlt
    refine ⟨?_, ?_, ?_⟩
    · show (List.foldl handleEventOp (handleEventOp σ e) es).stepsRef = σ.stepsRef
      rw [h2.1, h1.1]
    · show (List.foldl handleEventOp (handleEventOp σ e) es).store.cells.length
          = σ.store.cells.length
      rw [h2.2.1, h1.2.1]
    · show (List.foldl handleEventOp (handleEventOp σ e) es).store.read σ.stepsRef
          = handleEvents (σ.store.read σ.stepsRef) (e :: es)
      have hr : (List.foldl handleEventOp (handleEventOp σ e) es).store.read
          (handleEventOp σ e).stepsRef
          = handleEvents ((handleEventOp σ e).store.read (handleEventOp σ e).stepsRef) es :=
        h2.2.2
      rw [h1.1] at hr
      rw [hr, h1.2.2]
      rfl

/-- `clear` allocates: the new reference is the old store size, the store
grows by one, the new cell is empty, and old cells are untouched. -/
theorem clearOp_inv (σ : HandlerState) :
    (clearOp σ).stepsRef = σ.store.cells.length
    ∧ (clearOp σ).store.cells.length = σ.store.cells.length + 1
    ∧ (clearOp σ).store.read (clearOp σ).stepsRef = []
    ∧ ∀ r, r < σ.store.cells.length → (clearOp σ).store.read r = σ.store.read r := by
  refine ⟨rfl, alloc_length .., read_alloc_new .., fun r hr => read_alloc_old _ _ _ hr⟩

/-- A later record or reset never touches a cell the handler does not
reference, and keeps the invariant that it never will. -/
theorem runOp_frame (σ : HandlerState) (op : RecorderOp) (r : Nat)
    (hr : r < σ.store.cells.length) (hne : σ.stepsRef ≠ r) :
    (runOp σ op).store.read r = σ.store.read r
    ∧ r < (runOp σ op).store.cells.length
    ∧ (runOp σ op).stepsRef ≠ r := by
  cases op with
  | record s =>
    refine ⟨read_write_ne _ _ _ _ hne, ?_, hne⟩
    show r < (σ.store.write σ.stepsRef (σ.store.read σ.stepsRef ++ [s])).cells.length
    rw [write_length]
    exact hr
  | reset =>
    have hc := clearOp_inv σ
    refine ⟨hc.2.2.2 r hr, ?_, ?_⟩
    · show r < (clearOp σ).store.cells.length
      rw [hc.2.1]
      omega
    · show (clearOp σ).stepsRef ≠ r
      rw [hc.1]
      omega

/-- A whole sequence of later records and resets leaves an unreferenced cell
unchanged. -/
theorem runOps_frame (ops : List RecorderOp) (σ : HandlerState) (r : Nat)
    (hr : r < σ.store.cells.length) (hne : σ.stepsRef ≠ r) :
    (runOps σ ops).store.read r = σ.store.read r := by
  induction ops generalizing σ with
  | nil => rfl
  | cons op ops ih =>
    have h1 := runOp_frame σ op r hr hne
    calc (runOps σ (op :: ops)).store.read r
        = (runOps (runOp σ op) ops).store.read r := rfl
      _ = (runOp σ op).store.read r := ih (runOp σ op) h1.2.1 h1.2.2
      _ = σ.store.read r := h1.1

end Alias

/-- Claim C5: the step trace attached to a ChatMessage is never retroactively
edited.  In the list-object model: the working buffer is cleared before the
invocation begins (so the attached cell holds exactly the steps of this
invocation's notifications, starting from empty), the steps are copied once
into a fresh cell owned by the message, and any later sequence of `record` or
`reset` calls on the recorder leaves that attached cell unchanged. -/
theorem c5_no_retroactive_edit (σ : Alias.HandlerState) (events : List CbEvent)
    (ops : List Alias.RecorderOp) :
    ((Alias.attachSteps (Alias.invokeTurn σ events)).1).store.read
        (Alias.attachSteps (Alias.invokeTurn σ events)).2
      = handleEvents [] events
    ∧ (Alias.runOps (Alias.attachSteps (Alias.invokeTurn σ events)).1 ops).store.read
        (Alias.attachSteps (Alias.invokeTurn σ events)).2
      = handleEvents [] events := by
  have hc := Alias.clearOp_inv σ
  have hlt : (Alias.clearOp σ).stepsRef < (Alias.clearOp σ).store.cells.length := by
    rw [hc.1, hc.2.1]
    omega
  have hf := Alias.foldl_handleEventOp events (Alias.clearOp σ) hlt
  have hread : (Alias.invokeTurn σ events).store.read (Alias.invokeTurn σ events).stepsRef
      = handleEvents [] events := by
    show (List.foldl Alias.handleEventOp (Alias.clearOp σ) events).store.read
        (List.foldl Alias.handleEventOp (Alias.clearOp σ) events).stepsRef
      = handleEvents [] events
    rw [hf.1, hf.2.2, hc.2.2.1]
  have hattach : ((Alias.attachSteps (Alias.invokeTurn σ events)).1).store.read
      (Alias.attachSteps (Alias.invokeTurn σ events)).2
      = handleEvents [] events := by
    show ((Alias.invokeTurn σ events).store.alloc
        ((Alias.invokeTurn σ events).store.read (Alias.invokeTurn σ events).stepsRef)).1.read
        ((Alias.invokeTurn σ events).store.alloc
        ((Alias.invokeTurn σ events).store.read (Alias.invokeTurn σ events).stepsRef)).2
      = handleEvents [] events
    rw [Alias.read_alloc_new, hread]
  refine ⟨hattach, ?_⟩
  have hrefEq : (Alias.invokeTurn σ events).stepsRef = σ.store.cells.length := by
    show (List.foldl Alias.handleEventOp (Alias.clearOp σ) events).stepsRef
      = σ.store.cells.length
    rw [hf.1, hc.1]
  have hlenEq : (Alias.invokeTurn σ events).store.cells.length
      = σ.store.cells.length + 1 := by
    show (List.foldl Alias.handleEventOp (Alias.clearOp σ) events).store.cells.length
      = σ.store.cells.length + 1
    rw [hf.2.1, hc.2.1]
  have hm : (Alias.attachSteps (Alias.invokeTurn σ events)).2
      = (Alias.invokeTurn σ events).store.cells.length := rfl
  have hσ₂ref : ((Alias.attachSteps (Alias.invokeTurn σ events)).1).stepsRef
      = (Alias.invokeTurn σ events).stepsRef := rfl
  have hσ₂len : ((Alias.attachSteps (Alias.invokeTurn σ events)).1).store.cells.length
      = (Alias.invokeTurn σ events).store.cells.length + 1 := by
    exact Alias.alloc_length ..
  have hframe := Alias.runOps_frame ops ((Alias.attachSteps (Alias.invokeTurn σ events)).1)
      ((Alias.attachSteps (Alias.invokeTurn σ events)).2)
      (by rw [hm, hσ₂len]; omega)
      (by rw [hm, hσ₂ref, hrefEq, hlenEq]; omega)
  rw [hframe, hattach]

/-- The four notifications of the spec's example scenario. -/
def scenarioEvents : List CbEvent :=
  [.chainStart agentSer, .toolStart sqlToolSer "<SQL>", .toolEnd "<5 rows>", .chainEnd]

/-- The agent's final answer text in the example scenario. -/
def scenarioAnswer : String :=
  "The top 5 best-selling artists are Iron Maiden, U2, Metallica, Led Zeppelin and Deep Purple."

/-- The tool-invocation step recorded in the example scenario. -/
def scenarioToolStep : AgentStep :=
  ⟨"tool_start", some "query_sql", some "<SQL>", "🔧 Invoking: `query_sql` with `<SQL>`"⟩

/-- The tool-result step recorded in the example scenario. -/
def scenarioOutStep : AgentStep :=
  ⟨"tool_output", none, none, "<5 rows>"⟩

/-- The turn of the example scenario, run from an empty session. -/
def scenarioTurn : TurnResult :=
  appTurn emptySession "Top 5 best-selling artists?" (okAgent scenarioEvents scenarioAnswer)

/-- Claim C3 counterexample: in the example scenario the resulting assistant
message carries the final answer text but only 3 AgentStep records, not 4 —
`on_chain_end` drops the trailing chain-end event because the preceding
recorded step is a tool output, not a chain start. -/
theorem c3_scenario_cex :
    (scenarioTurn.sess.messages.getLastD ⟨"", "", none⟩).role = "assistant"
    ∧ (scenarioTurn.sess.messages.getLastD ⟨"", "", none⟩).content = scenarioAnswer
    ∧ ((scenarioTurn.sess.messages.getLastD ⟨"", "", none⟩).thinking_steps.getD []).length = 3
    ∧ ¬ ((scenarioTurn.sess.messages.getLastD ⟨"", "", none⟩).thinking_steps.getD []).length
        = 4 := by
  refine ⟨by decide, by decide, by decide, by decide⟩

/-- Claim C3 (amended): in the example scenario the turn succeeds and appends
the user message plus one assistant message whose role is `assistant`, whose
content is the agent's final answer text, and which carries exactly 3
AgentStep records — chain-start, tool-invoked, tool-result, in emission
order; the chain-end event is dropped by the handler's last-step guard. -/
theorem c3_scenario_amended :
    scenarioTurn.raised = none
    ∧ scenarioTurn.sess.messages
        = [⟨"user", "Top 5 best-selling artists?", none⟩,
           ⟨"assistant", scenarioAnswer,
             some [chainStartStep, scenarioToolStep, scenarioOutStep]⟩]
    ∧ handleEvents [] scenarioEvents
        = [chainStartStep, scenarioToolStep, scenarioOutStep] := by
  refine ⟨by decide, by decide, by decide⟩

/-- Claim C1 counterexample: when the agent invocation raises (here with
message `connection refused`), the exception escapes the orchestrator of
src/app.py uncaught — it is not converted into an assistant message: the
transcript holds no assistant message at all after the turn. -/
theorem c1_failure_propagates_cex :
    (appTurn emptySession "Top 5 best-selling artists?"
        (failAgent [] "connection refused")).raised = some "connection refused"
    ∧ ((appTurn emptySession "Top 5 best-selling artists?"
        (failAgent [] "connection refused")).sess.messages.filter
          fun m => m.role == "assistant") = [] := by
  refine ⟨by decide, by decide⟩

/-- Claim C1 (amended): a raising agent invocation is caught and converted
into an error-carrying assistant message only in the archived handler
(src/Archives/3rd_attempt.py); in the current orchestrator (src/app.py) the
exception propagates out of the turn with no assistant message appended,
while the session state persists, so a subsequent successful query still
appends its user and assistant messages normally. -/
theorem c1_error_handling_amended (sess : Session) (prompt prompt₂ msg out : String)
    (evs evs₂ : List CbEvent) :
    (appTurn sess prompt (failAgent evs msg)).raised = some msg
    ∧ (appTurn sess prompt (failAgent evs msg)).sess.messages
        = sess.messages ++ [⟨"user", prompt, none⟩]
    ∧ (appTurn (appTurn sess prompt (failAgent evs msg)).sess prompt₂
        (okAgent evs₂ out)).raised = none
    ∧ (appTurn (appTurn sess prompt (failAgent evs msg)).sess prompt₂
        (okAgent evs₂ out)).sess.messages
        = sess.messages ++ [⟨"user", prompt, none⟩, ⟨"user", prompt₂, none⟩,
            ⟨"assistant", out, some (handleEvents [] evs₂)⟩]
    ∧ (archiveTurn sess prompt (failAgent evs msg)).messages
        = sess.messages ++ [⟨"user", prompt, none⟩,
            ⟨"assistant", archiveErrText msg, none⟩] := by
  refine ⟨rfl, rfl, rfl, ?_, ?_⟩
  · show (sess.messages ++ [⟨"user", prompt, none⟩] ++ [⟨"user", prompt₂, none⟩])
        ++ [⟨"assistant", out, some (get_steps (handleEvents (clear []) evs₂))⟩]
      = sess.messages ++ [⟨"user", prompt, none⟩, ⟨"user", prompt₂, none⟩,
          ⟨"assistant", out, some (handleEvents [] evs₂)⟩]
    simp [get_steps, clear, List.append_assoc]
  · show (sess.messages ++ [⟨"user", prompt, none⟩])
        ++ [⟨"assistant", archiveErrText msg, none⟩]
      = sess.messages ++ [⟨"user", prompt, none⟩,
          ⟨"assistant", archiveErrText msg, none⟩]
    simp [List.append_assoc]

/-- Claim C4 counterexample: a failing turn in src/app.py grows the transcript
by one message only (the user message), not two, and produces no assistant
message. -/
theorem c4_failed_turn_growth_cex :
    (appTurn emptySession "Count total artists in the database"
        (failAgent [] "boom")).sess.messages.length = 1
    ∧ ¬ ((appTurn emptySession "Count total artists in the database"
        (failAgent [] "boom")).sess.messages.length = 2)
    ∧ ((appTurn emptySession "Count total artists in the database"
        (failAgent [] "boom")).sess.messages.countP
          fun m => m.role == "assistant") = 0 := by
  refine ⟨by decide, by decide, by decide⟩

/-- Claim C4 (amended): a successful turn in src/app.py grows the transcript
by exactly two (one user, one assistant message); a failing turn grows it by
exactly one — the user message only, with no assistant message.  In the
archived handler every turn grows the transcript by exactly two, the failing
case ending in an assistant message whose content signals the error. -/
theorem c4_transcript_growth_amended (sess : Session) (prompt out msg : String)
    (evs : List CbEvent) :
    (appTurn sess prompt (okAgent evs out)).sess.messages.length
        = sess.messages.length + 2
    ∧ (appTurn sess prompt (failAgent evs msg)).sess.messages.length
        = sess.messages.length + 1
    ∧ ((appTurn sess prompt (failAgent evs msg)).sess.messages.countP
          fun m => m.role == "assistant")
        = (sess.messages.countP fun m => m.role == "assistant")
    ∧ (archiveTurn sess prompt (okAgent evs out)).messages.length
        = sess.messages.length + 2
    ∧ (archiveTurn sess prompt (failAgent evs msg)).messages.length
        = sess.messages.length + 2
    ∧ (archiveTurn sess prompt (failAgent evs msg)).messages.getLast?
        = some ⟨"assistant", archiveErrText msg, none⟩ := by
  refine ⟨?_, ?_, ?_, ?_, ?_, ?_⟩
  · show ((sess.messages ++ ([⟨"user", prompt, none⟩] : List ChatMessage))
        ++ ([⟨"assistant", out, some (get_steps (handleEvents (clear []) evs))⟩] :
          List ChatMessage)).length
      = sess.messages.length + 2
    simp
  · show (sess.messages ++ ([⟨"user", prompt, none⟩] : List ChatMessage)).length
      = sess.messages.length + 1
    simp
  · show ((sess.messages ++ ([⟨"user", prompt, none⟩] : List ChatMessage)).countP
        fun m => m.role == "assistant")
      = sess.messages.countP fun m => m.role == "assistant"
    simp [List.countP_append, List.countP_cons]
  · show ((sess.messages ++ ([⟨"user", prompt, none⟩] : List ChatMessage))
        ++ ([⟨"assistant", out, none⟩] : List ChatMessage)).length
      = sess.messages.length + 2
    simp
  · show ((sess.messages ++ ([⟨"user", prompt, none⟩] : List ChatMessage))
        ++ ([⟨"assistant", archiveErrText msg, none⟩] : List ChatMessage)).length
      = sess.messages.length + 2
    simp
  · show ((sess.messages ++ ([⟨"user", prompt, none⟩] : List ChatMessage))
        ++ ([⟨"assistant", archiveErrText msg, none⟩] : List ChatMessage)).getLast?
      = some (⟨"assistant", archiveErrText msg, none⟩ : ChatMessage)
    rw [List.getLast?_concat]

/-- A tool output of 501 code points. -/
def longOut : String :=
  String.mk (List.replicate 501 'a')

/-- The long output has 501 code points. -/
theorem longOut_length : longOut.length = 501 := by
  show (List.replicate 501 'a').length = 501
  rw [List.length_replicate]

/-- The Python slice `longOut[:500]` keeps the first 500 code points. -/
theorem longOut_take : longOut.take 500 = String.mk (List.replicate 500 'a') := by
  apply String.ext
  rw [String.data_take]
  show (List.replicate 501 'a').take 500 = _
  rw [List.take_replicate]
  have hmin : min 500 501 = 500 := by omega
  rw [hmin]

/-- Claim C6 counterexample: for a 501-character tool output the recorded
content is the first 500 characters followed by `"..."` — 503 characters in
total, exceeding the source's cutoff constant 500, and different from the
plain truncation of the output to 500 characters. -/
theorem c6_truncation_cex :
    on_tool_end [] longOut
      = [⟨"tool_output", none, none, String.mk (List.replicate 500 'a') ++ "..."⟩]
    ∧ (String.mk (List.replicate 500 'a') ++ "...").length = 503
    ∧ ¬ ((String.mk (List.replicate 500 'a') ++ "...").length ≤ 500)
    ∧ String.mk (List.replicate 500 'a') ++ "..." ≠ longOut.take 500 := by
  have hlen : (String.mk (List.replicate 500 'a') ++ "...").length = 503 := by
    rw [String.length_append]
    show (List.replicate 500 'a').length + 3 = 503
    rw [List.length_replicate]
  have h500 : (String.mk (List.replicate 500 'a')).length = 500 := by
    show (List.replicate 500 'a').length = 500
    rw [List.length_replicate]
  refine ⟨?_, hlen, ?_, ?_⟩
  · have hgt : longOut.length > 500 := by
      rw [longOut_length]
      omega
    show record [] ⟨"tool_output", none, none,
        if longOut.length > 500 then longOut.take 500 ++ "..." else longOut⟩
      = [⟨"tool_output", none, none, String.mk (List.replicate 500 'a') ++ "..."⟩]
    rw [if_pos hgt, longOut_take]
    rfl
  · rw [hlen]
    omega
  · intro h
    have h2 := congrArg String.length h
    rw [hlen, longOut_take, h500] at h2
    omega

/-- Claim C6 (amended): a tool-result output of at most 500 characters is
recorded unchanged; a longer output is recorded as its first 500 characters
followed by the three-character marker `"..."`; hence the recorded content
never exceeds 503 characters (not 500: the marker is appended after the
500-character truncation). -/
theorem c6_truncation_amended (steps : List AgentStep) (output : String) :
    (output.length ≤ 500 →
      on_tool_end steps output = steps ++ [⟨"tool_output", none, none, output⟩])
    ∧ (500 < output.length →
      on_tool_end steps output
        = steps ++ [⟨"tool_output", none, none, output.take 500 ++ "..."⟩])
    ∧ ((on_tool_end steps output).getLast?.map fun s => s.content.length).getD 0 ≤ 503 := by
  refine ⟨?_, ?_, ?_⟩
  · intro h
    have hn : ¬ (output.length > 500) := by omega
    simp [on_tool_end, record, hn]
  · intro h
    simp [on_tool_end, record, h]
  · by_cases h : output.length > 500
    · have e2 : on_tool_end steps output
          = steps ++ [⟨"tool_output", none, none, output.take 500 ++ "..."⟩] := by
        simp [on_tool_end, record, h]
      rw [e2, List.getLast?_concat]
      simp only [Option.map_some', Option.getD_some]
      rw [String.length_append, length_take_eq]
      have h3 : ("..." : String).length = 3 := rfl
      rw [h3]
      omega
    · have e1 : on_tool_end steps output
          = steps ++ [⟨"tool_output", none, none, output⟩] := by
        simp [on_tool_end, record, h]
      rw [e1, List.getLast?_concat]
      simp only [Option.map_some', Option.getD_some]
      omega

/-- Claim C6 witness: a short output (`<5 rows>`) is recorded unchanged; the
501-character output is recorded truncated with the `...` marker. -/
theorem c6_truncation_amended_witness :
    on_tool_end [] "<5 rows>" = [] ++ [⟨"tool_output", none, none, "<5 rows>"⟩]
    ∧ on_tool_end [] longOut
      = [] ++ [⟨"tool_output", none, none, longOut.take 500 ++ "..."⟩] :=
  ⟨(c6_truncation_amended [] "<5 rows>").1 (by decide),
   (c6_truncation_amended [] longOut).2.1 (by rw [longOut_length]; omega)⟩
